import Mathlib

/-!
Shallow embedding of the `plonky` repository's circuit-builder core
(`src/plonk2/mod.rs`) and recursive-verification construction
(`src/plonk_recursion.rs`), together with theorems settling the frozen
claims about them.

Conventions:
* Rust `Vec` becomes `List`; the builder's `HashSet` of gate kinds is kept
  abstract as a list of an arbitrary kind type (only its framing matters
  to the claims).
* `panic!`-style failures (`assert!`, `todo!`) become `Except` errors.
* The outer `CircuitBuilder`'s gate-level field primitives and the witness
  resolution engine are not under `src/`; they are modelled from the spec
  (sections 3, 4.3 and 6) in definitions whose doc comments start with
  "Modelled from the spec:".
-/

set_option autoImplicit false

/-- Wire position, mirroring the source's `Wire { gate, input }`
(declared in the crate root; its shape is shown by `Target2::wire`). -/
structure Wire where
  gate : Nat
  input : Nat
deriving DecidableEq

/-- Location in the witness, mirroring `Target2` from `src/plonk2/mod.rs`.
The uninhabited `_Field(Infallible, PhantomData)` marker variant is omitted:
it can never be constructed (spec section 7, "Unreachable states"). -/
inductive Target2 where
  | Wire (w : Wire)
  | PublicInput (index : Nat)
  | VirtualAdviceTarget (index : Nat)
deriving DecidableEq

/-- Routability predicate on wire positions (see `Target2.is_routable`). -/
abbrev WireRoutable : Type := Wire → Bool

/-- Mirrors `Target2::wire(gate, input)`. -/
def Target2.wire (gate input : Nat) : Target2 :=
  Target2.Wire ⟨gate, input⟩

/-- Mirrors `Target2::is_routable`. The source delegates the `Wire` case to
`Wire::is_routable`, whose body is outside `src/`; per the spec (section 3,
"Routable iff the gate's wire layout marks that input as participating in
the permutation argument") it is abstracted as a predicate `wr` on wires.
`PublicInput` is always routable and `VirtualAdviceTarget` never is, exactly
as in the source. -/
def Target2.is_routable (wr : WireRoutable) : Target2 → Bool
  | Target2.Wire w => wr w
  | Target2.PublicInput _ => true
  | Target2.VirtualAdviceTarget _ => false

/-- Modelled from the spec: `PartialWitness2` (module `witness` is not under
`src/`). Spec section 3: "a partial mapping from Target to field-element
value; supports lookup (fails if absent), insertion of a singleton mapping,
and merging of two partial witnesses (fails if they disagree on a shared
key)". Represented as an association list; lookup takes the first match. -/
abbrev PartialWitness2 (F : Type) : Type := List (Target2 × F)

/-- Lookup of a target's value; `none` models the "fails if absent" case. -/
def PartialWitness2.get {F : Type} : PartialWitness2 F → Target2 → Option F
  | [], _ => none
  | (k, v) :: rest, t => if k = t then some v else PartialWitness2.get rest t

/-- Mirrors `PartialWitness2::singleton(target, value)`. -/
def PartialWitness2.singleton {F : Type} (t : Target2) (v : F) : PartialWitness2 F :=
  [(t, v)]

/-- Errors of the witness resolution engine (spec section 4.3): a merge
disagreeing on a shared key, or a stalled fixpoint. -/
inductive WitnessError where
  | inconsistent
  | stalled
deriving DecidableEq

/-- Modelled from the spec: merging of two partial witnesses (spec section 3);
fails with `inconsistent` if they disagree on a shared key, and otherwise
extends the base mapping with the new keys. -/
def PartialWitness2.merge {F : Type} [DecidableEq F] :
    PartialWitness2 F → PartialWitness2 F → Except WitnessError (PartialWitness2 F)
  | base, [] => Except.ok base
  | base, (k, v) :: rest =>
    match PartialWitness2.get base k with
    | none => PartialWitness2.merge (base ++ [(k, v)]) rest
    | some u => if u = v then PartialWitness2.merge base rest
                else Except.error WitnessError.inconsistent

/-- Capability interface of a witness generator (spec sections 3 and 9):
a dependency list plus a `run_once` step producing a partial assignment.
The source holds generators polymorphically (`Box<dyn WitnessGenerator2>`),
which this record models. -/
structure WitnessGenerator2 (F : Type) where
  dependencies : List Target2
  run_once : PartialWitness2 F → PartialWitness2 F

/-- Mirrors the `CopyGenerator` defined inside
`CircuitBuilder2::generate_copy`: dependencies `[x]`; `run_once` looks up
`x` and emits the singleton mapping `y ↦ value of x`. The source's
`witness.get(self.x)` requires `x` to be present (the engine only runs a
generator once its dependencies are present); the unreachable absent case
returns the empty assignment. -/
def CopyGenerator {F : Type} (x y : Target2) : WitnessGenerator2 F :=
  ⟨[x], fun w =>
    match PartialWitness2.get w x with
    | some value => PartialWitness2.singleton y value
    | none => []⟩

/-- Construction-time failures: a failed `assert!` precondition, or a
`todo!()` reached during construction. -/
inductive BuildError where
  | assertionFailure
  | notImplemented
deriving DecidableEq

/-- Mirrors `CircuitBuilder2` from `src/plonk2/mod.rs`: a deduplicated set
of gate kinds (`gates`), the ordered gate-instance list, and the generator
list. The external `GateWrapper` and `GateInstance` types are abstract
parameters `K` and `G`. Note the struct has no partition / equivalence-class
component. -/
structure CircuitBuilder2 (F K G : Type) where
  gates : List K
  gate_instances : List G
  generators : List (WitnessGenerator2 F)

/-- Mirrors `CircuitBuilder2::new()`. -/
def CircuitBuilder2.new {F K G : Type} : CircuitBuilder2 F K G :=
  ⟨[], [], []⟩

/-- Mirrors `CircuitBuilder2::add_gate`: returns the current length of the
gate-instance list as the new index and appends the instance. -/
def CircuitBuilder2.add_gate {F K G : Type} (b : CircuitBuilder2 F K G) (gate_instance : G) :
    Nat × CircuitBuilder2 F K G :=
  (b.gate_instances.length, ⟨b.gates, b.gate_instances ++ [gate_instance], b.generators⟩)

/-- Mirrors `CircuitBuilder2::add_generator`. -/
def CircuitBuilder2.add_generator {F K G : Type} (b : CircuitBuilder2 F K G)
    (g : WitnessGenerator2 F) : CircuitBuilder2 F K G :=
  ⟨b.gates, b.gate_instances, b.generators ++ [g]⟩

/-- Mirrors `CircuitBuilder2::generate_copy`: registers a `CopyGenerator`. -/
def CircuitBuilder2.generate_copy {F K G : Type} (b : CircuitBuilder2 F K G)
    (x y : Target2) : CircuitBuilder2 F K G :=
  b.add_generator (CopyGenerator x y)

/-- Mirrors `CircuitBuilder2::assert_equal`: asserts that `x` and then `y`
are routable (a Rust `assert!` panic becomes an `Except.error`), and does
nothing else — the builder state is returned unchanged. -/
def CircuitBuilder2.assert_equal {F K G : Type} (wr : Wire → Bool)
    (b : CircuitBuilder2 F K G) (x y : Target2) :
    Except BuildError (CircuitBuilder2 F K G) :=
  if Target2.is_routable wr x then
    if Target2.is_routable wr y then Except.ok b
    else Except.error BuildError.assertionFailure
  else Except.error BuildError.assertionFailure

/-- Mirrors `CircuitBuilder2::route`: `generate_copy` first, then
`assert_equal`, in that order. -/
def CircuitBuilder2.route {F K G : Type} (wr : Wire → Bool)
    (b : CircuitBuilder2 F K G) (x y : Target2) :
    Except BuildError (CircuitBuilder2 F K G) :=
  CircuitBuilder2.assert_equal wr (b.generate_copy x y) x y

/-- Mirrors `CircuitBuilder2::constant`, whose body is `todo!()`: it reaches
an explicit not-implemented failure instead of returning a target. -/
def CircuitBuilder2.constant {F K G : Type} (_b : CircuitBuilder2 F K G) (_c : F) :
    Except BuildError (CircuitBuilder2 F K G × Target2) :=
  Except.error BuildError.notImplemented

/-- Mirrors `CircuitBuilder2::zero`: `constant(F::ZERO)`. -/
def CircuitBuilder2.zero {F K G : Type} [Field F] (b : CircuitBuilder2 F K G) :
    Except BuildError (CircuitBuilder2 F K G × Target2) :=
  b.constant 0

/-- Mirrors `CircuitBuilder2::one`: `constant(F::ONE)`. -/
def CircuitBuilder2.one {F K G : Type} [Field F] (b : CircuitBuilder2 F K G) :
    Except BuildError (CircuitBuilder2 F K G × Target2) :=
  b.constant 1

/-- Mirrors `CircuitBuilder2::two`: `constant(F::TWO)`. -/
def CircuitBuilder2.two {F K G : Type} [Field F] (b : CircuitBuilder2 F K G) :
    Except BuildError (CircuitBuilder2 F K G × Target2) :=
  b.constant 2

/-- Mirrors `CircuitBuilder2::neg_one`: `constant(F::NEG_ONE)`. -/
def CircuitBuilder2.neg_one {F K G : Type} [Field F] (b : CircuitBuilder2 F K G) :
    Except BuildError (CircuitBuilder2 F K G × Target2) :=
  b.constant (-1)

/-- Discriminator for `Except` results, used to state that a call does not
return a success value. -/
def exceptIsOk {E A : Type} : Except E A → Bool
  | Except.ok _ => true
  | Except.error _ => false

/-- Modelled from the spec: one state of the witness resolution engine's
dependency check (spec section 4.3) — a generator is runnable once its full
dependency set is present in the growing witness. -/
def deps_present {F : Type} (w : PartialWitness2 F) (g : WitnessGenerator2 F) : Bool :=
  g.dependencies.all (fun t => (PartialWitness2.get w t).isSome)

/-- Modelled from the spec: a single fixpoint pass of the witness resolution
engine (spec section 4.3): run every not-yet-run generator whose dependencies
are all present, merging each output into the global witness (conflicts
fail); return the still-pending generators, the grown witness, and whether
any generator ran. -/
def generator_pass {F : Type} [DecidableEq F] :
    List (WitnessGenerator2 F) → PartialWitness2 F →
    Except WitnessError (List (WitnessGenerator2 F) × PartialWitness2 F × Bool)
  | [], w => Except.ok ([], w, false)
  | g :: rest, w =>
    if deps_present w g then
      match PartialWitness2.merge w (g.run_once w) with
      | Except.error e => Except.error e
      | Except.ok w1 =>
        match generator_pass rest w1 with
        | Except.error e => Except.error e
        | Except.ok (pending, w2, _) => Except.ok (pending, w2, true)
    else
      match generator_pass rest w with
      | Except.error e => Except.error e
      | Except.ok (pending, w1, progress) => Except.ok (g :: pending, w1, progress)

/-- Modelled from the spec: the fuelled fixpoint loop of the witness
resolution engine (spec section 4.3): repeat passes until no generator is
pending; a pass with no progress while generators remain is the "stalled
witness generation" error. Each productive pass runs at least one generator,
so `gens.length + 1` passes always suffice. -/
def resolve_aux {F : Type} [DecidableEq F] :
    Nat → List (WitnessGenerator2 F) → PartialWitness2 F →
    Except WitnessError (PartialWitness2 F)
  | 0, _, _ => Except.error WitnessError.stalled
  | Nat.succ fuel, gens, w =>
    match generator_pass gens w with
    | Except.error e => Except.error e
    | Except.ok (pending, w1, progress) =>
      if pending.isEmpty then Except.ok w1
      else if progress then resolve_aux fuel pending w1
      else Except.error WitnessError.stalled

/-- Modelled from the spec: full witness resolution (spec section 4.3) from
an initial explicit-input assignment and the registered generator list. -/
def resolve_witness {F : Type} [DecidableEq F] (gens : List (WitnessGenerator2 F))
    (inputs : PartialWitness2 F) : Except WitnessError (PartialWitness2 F) :=
  resolve_aux (gens.length + 1) gens inputs

/-- Modelled from the spec: the outer `CircuitBuilder`'s primitive `double`
(spec section 6, "obvious field-arithmetic semantics"): `double(t) = t + t`.
The outer `CircuitBuilder` itself is not under `src/`. -/
def builderDouble {F : Type} [Field F] (t : F) : F :=
  t + t

/-- Modelled from the spec: the outer `CircuitBuilder`'s primitive `inv`
(spec sections 4.4 and 6): an in-circuit field inverse, which must fail the
surrounding construction when the operand is the additive identity. -/
def builderInv {F : Type} [Field F] [DecidableEq F] (u : F) : Option F :=
  if u = 0 then none else some u⁻¹

/-- Field semantics of the `zeta_power_d` loop in `verify_assumptions`
(`src/plonk_recursion.rs` lines 124-128): starting from `zeta`, apply
`builder.double` once per each of the `degree_pow` iterations. -/
def zeta_power_d {F : Type} [Field F] (zeta : F) (degree_pow : Nat) : F :=
  builderDouble^[degree_pow] zeta

/-- Field semantics of `zero_eval` in `verify_assumptions` (line 131):
`builder.sub(zeta_power_d, one)`. -/
def zero_eval {F : Type} [Field F] (zeta : F) (degree_pow : Nat) : F :=
  zeta_power_d zeta degree_pow - 1

/-- Field semantics of `lagrange_1_eval` in `verify_assumptions`
(lines 134-136): `div(zero_eval, mul(degree_wire, sub(zeta, one)))`, with
`degree_wire` the constant `F::from_canonical_usize(1 << degree_pow)`. -/
def lagrange_1_eval {F : Type} [Field F] (zeta : F) (degree_pow : Nat) : F :=
  zero_eval zeta degree_pow / (((2 ^ degree_pow : Nat) : F) * (zeta - 1))

/-- Field semantics of `alpha_reduction`'s loop body
(`src/plonk_recursion.rs` lines 164-179), consuming the enumerated term
list: state is `(reduction, weight)`; at index `i ≠ 0` the weight is first
multiplied by `alpha`, then the weighted term is accumulated. -/
def alpha_reduction_go {F : Type} [Field F] (alpha : F) :
    F → F → List (Nat × F) → F
  | reduction, _weight, [] => reduction
  | reduction, weight, (i, term) :: rest =>
    let weight1 := if i ≠ 0 then weight * alpha else weight
    alpha_reduction_go alpha (reduction + weight1 * term) weight1 rest

/-- Mirrors `alpha_reduction` (`src/plonk_recursion.rs` lines 164-179) under
the field semantics of the builder primitives: `reduction = zero_wire`,
`weight = one_wire`, then the enumerated loop. -/
def alpha_reduction {F : Type} [Field F] (terms : List F) (alpha : F) : F :=
  alpha_reduction_go alpha 0 1 terms.enum

/-- Mirrors `eval_composite_poly` (`src/plonk_recursion.rs` lines 183-194)
under the field semantics of the builder primitives: `sum = zero_wire`, then
for each component evaluation from the end, `sum = sum * zeta_power_d +
component`. -/
def eval_composite_poly {F : Type} [Field F] (component_evals : List F)
    (zeta_power_d : F) : F :=
  component_evals.reverse.foldl (fun sum c => sum * zeta_power_d + c) 0

/-- Loop of `halo_g` (`src/plonk_recursion.rs` lines 196-208) under the
field semantics of the builder primitives: for each `u_i`, take its
in-circuit inverse (failing on zero), multiply the running product by
`u_i + u_i⁻¹ * x_power`, and `double` the running `x_power`. -/
def halo_g_go {F : Type} [Field F] [DecidableEq F] :
    F → F → List F → Option F
  | product, _x_power, [] => some product
  | product, x_power, u :: us =>
    match builderInv u with
    | none => none
    | some u_inv =>
      halo_g_go (product * (u + u_inv * x_power)) (builderDouble x_power) us

/-- Mirrors `halo_g` (`src/plonk_recursion.rs` lines 196-208): product
starts at `one_wire`, the running power starts at `x`. -/
def halo_g {F : Type} [Field F] [DecidableEq F] (x : F) (us : List F) : Option F :=
  halo_g_go 1 x us

/-- Reference formula following the spec's words (sections 4.4 and 8, and
the claims on `alpha_reduction` / `eval_composite_poly`): the sum
`t0 * s^0 + t1 * s^1 + ... + tk * s^k` over the given terms in order. -/
def spec_power_sum {F : Type} [Field F] (terms : List F) (s : F) : F :=
  (terms.enum.map (fun p => p.2 * s ^ p.1)).sum

/-- Helper recursive form of `spec_power_sum` used in the proofs. -/
def horner_sum {F : Type} [Field F] : List F → F → F
  | [], _ => 0
  | t :: rest, s => t + s * horner_sum rest s

/-- Modelled from the spec: the outer `CircuitBuilder`'s construction-time
state, abstracted to the allocation counters the recursion constructor
touches (the builder itself is not under `src/`); circuit construction is
pure in-memory graph building (spec section 5). -/
structure BState where
  num_targets : Nat
  num_public_inputs : Nat
deriving DecidableEq

/-- Modelled from the spec: allocation of one fresh target by a builder
call (`add_virtual_target`, or a gate-level arithmetic primitive / rescue
hash gadget allocating its output wire, spec section 6); construction-time
these calls only extend builder state and cannot fail. -/
def allocTarget (s : BState) : BState × Nat :=
  (⟨s.num_targets + 1, s.num_public_inputs⟩, s.num_targets)

/-- Modelled from the spec: `add_virtual_targets(n)` — `n` fresh targets. -/
def allocTargets : Nat → BState → BState × List Nat
  | 0, s => (s, [])
  | Nat.succ n, s =>
    let p := allocTarget s
    let q := allocTargets n p.1
    (q.1, p.2 :: q.2)

/-- Modelled from the spec: `stage_public_input()` — stages one fresh public
input (spec sections 4.4 and 6). -/
def stagePublicInput (s : BState) : BState × Nat :=
  (⟨s.num_targets, s.num_public_inputs + 1⟩, s.num_public_inputs)

/-- Modelled from the spec: `stage_public_inputs(n)`. -/
def stagePublicInputs : Nat → BState → BState × List Nat
  | 0, s => (s, [])
  | Nat.succ n, s =>
    let p := stagePublicInput s
    let q := stagePublicInputs n p.1
    (q.1, p.2 :: q.2)

/-- Construction-time behaviour of `verify_assumptions`
(`src/plonk_recursion.rs` lines 105-162): the straight-line builder calls of
lines 112-136 (constant wire, one wire, the `degree_pow`-iteration doubling
loop, two subtractions, a multiplication and a division) each allocate and
cannot fail, and then line 140 (`let vanishing_z_1_term = todo!()`) is
reached, surfacing an explicit not-implemented construction failure; nothing
after it (line 141's `vanishing_v_shift_term`, the constraint evaluation,
alpha reduction, quotient comparison) executes. -/
def verify_assumptions (degree_pow : Nat) (s0 : BState) (_alpha _zeta : Nat) :
    Except BuildError (BState × Unit) :=
  let p1 := allocTarget s0
  let p2 := allocTarget p1.1
  let p3 := (fun p => allocTarget p.1)^[degree_pow] (allocTarget p2.1)
  let p4 := allocTarget p3.1
  let p5 := allocTarget p4.1
  let p6 := allocTarget p5.1
  let _p7 := allocTarget p6.1
  Except.error BuildError.notImplemented

/-- Construction-time behaviour of `recursive_verification_circuit`
(`src/plonk_recursion.rs` lines 50-103): stage the `ProofTarget` fields
(virtual targets and public inputs, with the external arity constants
`NUM_WIRES`, `NUM_CONSTANTS`, `QUOTIENT_POLYNOMIAL_DEGREE_MULTIPLIER` left
as parameters), derive the Fiat-Shamir challenges via the rescue hash
gadgets (each allocating its output targets), then call
`verify_assumptions`; `builder.build()` runs only if the latter returns. -/
def recursive_verification_circuit (degree_pow num_wires num_constants
    quotient_mult : Nat) : Except BuildError (BState × Unit) :=
  let s0 : BState := ⟨0, 0⟩
  let q1 := allocTargets num_wires s0
  let q2 := allocTarget q1.1
  let q3 := allocTargets quotient_mult q2.1
  let q4 := allocTargets num_constants q3.1
  let q5 := allocTargets num_wires q4.1
  let q6 := allocTargets num_wires q5.1
  let q7 := allocTargets num_wires q6.1
  let q8 := allocTarget q7.1
  let q9 := allocTargets quotient_mult q8.1
  let r1 := stagePublicInput q9.1
  let r2 := stagePublicInput r1.1
  let r3 := stagePublicInputs num_constants r2.1
  let r4 := stagePublicInputs num_wires r3.1
  let r5 := stagePublicInputs num_wires r4.1
  let r6 := stagePublicInputs num_wires r5.1
  let r7 := stagePublicInput r6.1
  let r8 := stagePublicInputs quotient_mult r7.1
  let r9 := stagePublicInputs degree_pow r8.1
  let h1 := allocTargets degree_pow r9.1
  let h2 := allocTargets degree_pow h1.1
  let h3 := allocTarget h2.1
  let h4 := allocTarget h3.1
  let h5 := allocTarget h4.1
  let h6 := allocTarget h5.1
  let h7 := allocTarget h6.1
  let h8 := allocTarget h7.1
  let h9 := allocTarget h8.1
  match verify_assumptions degree_pow h9.1 r1.2 r2.2 with
  | Except.error e => Except.error e
  | Except.ok (s, _) => Except.ok (s, ())

/-- C1. Claim: `assert_equal(x, y)` on routable targets records the pair in
the builder's permutation-argument equivalence classes, transitively merged.
What the code actually does: `assert_equal` only asserts routability of both
arguments and returns; the builder state is unchanged on every routable pair
(the `CircuitBuilder2` struct has no partition / equivalence-class component
at all), so issuing `assert_equal(a,b)` then `assert_equal(b,c)` also leaves
the builder exactly as it was: nothing is ever recorded. -/
theorem assert_equal_discards_pairs :
    (∀ (F K G : Type) (wr : WireRoutable) (st : CircuitBuilder2 F K G)
        (x y : Target2),
        Target2.is_routable wr x = true → Target2.is_routable wr y = true →
        CircuitBuilder2.assert_equal wr st x y = Except.ok st)
    ∧ (∀ (F K G : Type) (wr : WireRoutable) (st : CircuitBuilder2 F K G)
        (a b c : Target2),
        Target2.is_routable wr a = true → Target2.is_routable wr b = true →
        Target2.is_routable wr c = true →
        (CircuitBuilder2.assert_equal wr st a b).bind
            (fun st1 => CircuitBuilder2.assert_equal wr st1 b c)
          = Except.ok st) := by
  constructor
  · intro F K G wr st x y hx hy
    simp [CircuitBuilder2.assert_equal, hx, hy]
  · intro F K G wr st a b c ha hb hc
    simp [CircuitBuilder2.assert_equal, ha, hb, hc, Except.bind]

/-- Witness for `assert_equal_discards_pairs` at a concrete input. -/
theorem assert_equal_discards_pairs_witness :
    CircuitBuilder2.assert_equal (fun _ => true)
        (CircuitBuilder2.new : CircuitBuilder2 Nat Unit Unit)
        (Target2.PublicInput 0) (Target2.PublicInput 1)
      = Except.ok CircuitBuilder2.new :=
  assert_equal_discards_pairs.1 Nat Unit Unit (fun _ => true)
    CircuitBuilder2.new (Target2.PublicInput 0) (Target2.PublicInput 1) rfl rfl

/-- C4. The not-yet-implemented vanishing-polynomial boundary terms
(`vanishing_z_1_term`, `vanishing_v_shift_term` at lines 140-141 of
`src/plonk_recursion.rs`) surface as an explicit not-implemented
construction failure: for every `degree_pow` (and every choice of the
external arity constants), `verify_assumptions` and hence
`recursive_verification_circuit` reach that failure instead of producing a
circuit in which the terms are absent or zero. -/
theorem vanishing_terms_not_implemented :
    (∀ (degree_pow : Nat) (s : BState) (alpha zeta : Nat),
        verify_assumptions degree_pow s alpha zeta
          = Except.error BuildError.notImplemented)
    ∧ (∀ (degree_pow num_wires num_constants quotient_mult : Nat),
        recursive_verification_circuit degree_pow num_wires num_constants
            quotient_mult
          = Except.error BuildError.notImplemented) := by
  constructor
  · intro degree_pow s alpha zeta
    rfl
  · intro degree_pow num_wires num_constants quotient_mult
    rfl

/-- C8. For any non-routable target `t` — every `VirtualAdviceTarget`, and
every `Wire` whose position the wire layout marks non-routable —
`assert_equal(t, other)` and `assert_equal(other, t)` fail with the
routability precondition error for every choice of `other` (an `Except`
error, i.e. a reportable construction failure, never a silent no-op). -/
theorem assert_equal_requires_routability :
    (∀ (F K G : Type) (wr : WireRoutable) (st : CircuitBuilder2 F K G)
        (t other : Target2),
        Target2.is_routable wr t = false →
        CircuitBuilder2.assert_equal wr st t other
            = Except.error BuildError.assertionFailure
        ∧ CircuitBuilder2.assert_equal wr st other t
            = Except.error BuildError.assertionFailure)
    ∧ (∀ (wr : WireRoutable) (i : Nat),
        Target2.is_routable wr (Target2.VirtualAdviceTarget i) = false)
    ∧ (∀ (wr : WireRoutable) (w : Wire), wr w = false →
        Target2.is_routable wr (Target2.Wire w) = false) := by
  refine ⟨?_, ?_, ?_⟩
  · intro F K G wr st t other ht
    constructor
    · simp [CircuitBuilder2.assert_equal, ht]
    · cases hother : Target2.is_routable wr other <;>
        simp [CircuitBuilder2.assert_equal, ht, hother]
  · intro wr i
    rfl
  · intro wr w h
    simpa [Target2.is_routable] using h

/-- Witness for `assert_equal_requires_routability` at a concrete input. -/
theorem assert_equal_requires_routability_witness :
    CircuitBuilder2.assert_equal (fun _ => true)
        (CircuitBuilder2.new : CircuitBuilder2 Nat Unit Unit)
        (Target2.VirtualAdviceTarget 0) (Target2.PublicInput 0)
      = Except.error BuildError.assertionFailure
    ∧ CircuitBuilder2.assert_equal (fun _ => true)
        (CircuitBuilder2.new : CircuitBuilder2 Nat Unit Unit)
        (Target2.PublicInput 0) (Target2.VirtualAdviceTarget 0)
      = Except.error BuildError.assertionFailure :=
  assert_equal_requires_routability.1 Nat Unit Unit (fun _ => true)
    CircuitBuilder2.new (Target2.VirtualAdviceTarget 0) (Target2.PublicInput 0)
    rfl

/-- C9 (amended). `zero`, `one`, `two`, `neg_one` are fixed-value
conveniences delegating to `constant` with `F::ZERO`, `F::ONE`, `F::TWO`,
`F::NEG_ONE`; but `constant` itself is `todo!()`, so every such call fails
with an explicit not-implemented construction error instead of returning a
routable target. -/
theorem constant_conveniences_unimplemented :
    ∀ (F K G : Type) [Field F] (b : CircuitBuilder2 F K G) (c : F),
      b.constant c = Except.error BuildError.notImplemented
      ∧ b.zero = b.constant 0
      ∧ b.one = b.constant 1
      ∧ b.two = b.constant 2
      ∧ b.neg_one = b.constant (-1)
      ∧ b.zero = Except.error BuildError.notImplemented := by
  intro F K G _ b c
  exact ⟨rfl, rfl, rfl, rfl, rfl, rfl⟩

/-- C9 counterexample to the claim as stated: `constant(c)` does not return
a (routable) target — at the concrete input `c = 0` over `ZMod 101` the call
produces a construction error, not a success value. -/
theorem constant_returns_no_target :
    exceptIsOk (CircuitBuilder2.constant
        (CircuitBuilder2.new : CircuitBuilder2 (ZMod 101) Unit Unit) 0) = false
    ∧ CircuitBuilder2.constant
        (CircuitBuilder2.new : CircuitBuilder2 (ZMod 101) Unit Unit) 0
      = Except.error BuildError.notImplemented :=
  ⟨rfl, rfl⟩

/-- C10. `add_gate` returns the number of previously added instances as the
new index, appends the instance at the end, leaves previously added
instances unchanged, mutates only the gate-instance list (gate-kind set and
generator list are untouched), and consecutive calls assign consecutive
indices. -/
theorem add_gate_appends_densely :
    ∀ (F K G : Type) (b : CircuitBuilder2 F K G) (gi gi' : G),
      (b.add_gate gi).1 = b.gate_instances.length
      ∧ (b.add_gate gi).2.gate_instances = b.gate_instances ++ [gi]
      ∧ (b.add_gate gi).2.gates = b.gates
      ∧ (b.add_gate gi).2.generators = b.generators
      ∧ ((b.add_gate gi).2.add_gate gi').1 = (b.add_gate gi).1 + 1
      ∧ (b.add_gate gi).2.gate_instances.take b.gate_instances.length
          = b.gate_instances := by
  intro F K G b gi gi'
  refine ⟨rfl, rfl, rfl, rfl, ?_, ?_⟩
  · simp [CircuitBuilder2.add_gate]
  · simp [CircuitBuilder2.add_gate, List.take_left]

instance : Fact (Nat.Prime 101) := ⟨by norm_num⟩

/-- The doubling loop computes `2^degree_pow * zeta`, not `zeta^(2^degree_pow)`. -/
theorem zeta_power_d_eq_two_pow_mul {F : Type} [Field F] (z : F) :
    ∀ n : Nat, zeta_power_d z n = ((2 ^ n : Nat) : F) * z := by
  intro n
  induction n with
  | zero => simp [zeta_power_d]
  | succ n ih =>
    rw [zeta_power_d, Function.iterate_succ_apply',
      show builderDouble^[n] z = zeta_power_d z n from rfl, ih, builderDouble]
    push_cast [pow_succ]
    ring

/-- C2 evaluation. The `zeta_power_d` loop of `verify_assumptions` applies
`builder.double` (field semantics `t + t`) `degree_pow` times, so it
computes `2^degree_pow * zeta = degree * zeta`, not `zeta^degree`: at
`degree_pow = 2`, `zeta = 3` over `ZMod 101` the code's value is `12` while
`zeta^degree = 81`, `zero_eval` is `11` while `zeta^degree - 1 = 80`, and
`lagrange_1_eval` is `14` while `(zeta^degree - 1)/(degree*(zeta-1)) = 10`. -/
theorem zeta_power_loop_doubles_not_squares :
    (∀ (F : Type) [Field F] (zeta : F) (degree_pow : Nat),
        zeta_power_d zeta degree_pow = ((2 ^ degree_pow : Nat) : F) * zeta)
    ∧ zeta_power_d (3 : ZMod 101) 2 = 12
    ∧ (3 : ZMod 101) ^ (2 ^ 2 : Nat) = 81
    ∧ (12 : ZMod 101) ≠ 81
    ∧ zero_eval (3 : ZMod 101) 2 = 11
    ∧ (3 : ZMod 101) ^ (2 ^ 2 : Nat) - 1 = 80
    ∧ lagrange_1_eval (3 : ZMod 101) 2 = 14
    ∧ ((3 : ZMod 101) ^ (2 ^ 2 : Nat) - 1) / (((2 ^ 2 : Nat) : ZMod 101) * (3 - 1)) = 10
    ∧ (14 : ZMod 101) ≠ 10 := by
  have hden : (((2 ^ 2 : Nat) : ZMod 101) * (3 - 1)) = 8 := by decide
  refine ⟨fun F _ z n => zeta_power_d_eq_two_pow_mul z n,
    by decide, by decide, by decide, by decide, by decide, ?_, ?_, by decide⟩
  · unfold lagrange_1_eval
    rw [show zero_eval (3 : ZMod 101) 2 = 11 from by decide, hden,
      div_eq_iff (by decide : (8 : ZMod 101) ≠ 0)]
    decide
  · rw [show (3 : ZMod 101) ^ (2 ^ 2 : Nat) - 1 = 80 from by decide, hden,
      div_eq_iff (by decide : (8 : ZMod 101) ≠ 0)]
    decide

/-- Sum of `value * s^index` over an enumeration starting at `n`. -/
theorem enumFrom_power_sum {F : Type} [Field F] (s : F) :
    ∀ (l : List F) (n : Nat),
      ((l.enumFrom n).map (fun p => p.2 * s ^ p.1)).sum
        = s ^ n * horner_sum l s := by
  intro l
  induction l with
  | nil => intro n; simp [horner_sum]
  | cons t rest ih =>
    intro n
    simp only [List.enumFrom, List.map, List.sum_cons, horner_sum, ih (n + 1),
      pow_succ]
    ring

/-- The spec's power-sum formula agrees with its recursive Horner form. -/
theorem spec_power_sum_eq_horner {F : Type} [Field F] (l : List F) (s : F) :
    spec_power_sum l s = horner_sum l s := by
  have h := enumFrom_power_sum s l 0
  simpa [spec_power_sum, List.enum] using h

/-- C5. `eval_composite_poly` iterates the components from the end with
`sum = sum * s + component`, which evaluates
`c0 + c1*s + c2*s^2 + ... + ck*s^k`; in particular it gives `41` on
components `[3, 5, 7]` with `s = 2`. -/
theorem eval_composite_poly_is_power_sum :
    (∀ (F : Type) [Field F] (component_evals : List F) (s : F),
        eval_composite_poly component_evals s = spec_power_sum component_evals s)
    ∧ eval_composite_poly [3, 5, 7] (2 : ZMod 101) = 41 := by
  constructor
  · intro F _ component_evals s
    rw [spec_power_sum_eq_horner]
    simp only [eval_composite_poly, List.foldl_reverse]
    induction component_evals with
    | nil => simp [horner_sum]
    | cons c rest ih =>
      simp only [List.foldr, horner_sum, ih]
      ring
  · decide

/-- The `alpha_reduction` loop from an index that is never zero: every step
multiplies the running weight by `alpha` first. -/
theorem alpha_reduction_go_from_pos {F : Type} [Field F] (a : F) :
    ∀ (l : List F) (n : Nat), n ≠ 0 → ∀ (r w : F),
      alpha_reduction_go a r w (l.enumFrom n)
        = r + (w * a) * horner_sum l a := by
  intro l
  induction l with
  | nil => intro n _ r w; simp [alpha_reduction_go, horner_sum]
  | cons t rest ih =>
    intro n hn r w
    simp only [List.enumFrom, alpha_reduction_go, hn, if_true, ne_eq,
      not_false_eq_true]
    rw [ih (n + 1) (Nat.succ_ne_zero n)]
    simp only [horner_sum]
    ring

/-- C6. `alpha_reduction` weights the `i`-th term (in the given order) by
`alpha^i`: it equals `t0*alpha^0 + t1*alpha^1 + ... + tk*alpha^k`, and the
weights follow the terms' order (reordering the terms changes the result). -/
theorem alpha_reduction_weights_by_power_in_order :
    (∀ (F : Type) [Field F] (terms : List F) (alpha : F),
        alpha_reduction terms alpha = spec_power_sum terms alpha)
    ∧ alpha_reduction [3, 5, 7] (2 : ZMod 101) = 41
    ∧ alpha_reduction [5, 3, 7] (2 : ZMod 101) = 39
    ∧ alpha_reduction [3, 5, 7] (2 : ZMod 101)
        ≠ alpha_reduction [5, 3, 7] (2 : ZMod 101) := by
  refine ⟨?_, by decide, by decide, by decide⟩
  intro F _ terms alpha
  rw [spec_power_sum_eq_horner]
  cases terms with
  | nil => simp [alpha_reduction, alpha_reduction_go, horner_sum]
  | cons t rest =>
    simp only [alpha_reduction, List.enum, List.enumFrom, alpha_reduction_go,
      ne_eq, not_true_eq_false, if_false, ite_false]
    rw [alpha_reduction_go_from_pos alpha rest 1 one_ne_zero]
    simp only [horner_sum]
    ring

/-- The `halo_g` loop fails whenever the remaining `u` list contains the
additive identity: `builder.inv` on zero fails the construction. -/
theorem halo_g_go_none_of_zero_mem {F : Type} [Field F] [DecidableEq F] :
    ∀ (us : List F) (product x_power : F), (0 : F) ∈ us →
      halo_g_go product x_power us = none := by
  intro us
  induction us with
  | nil => intro p xp h; cases h
  | cons u rest ih =>
    intro p xp h
    rcases List.mem_cons.mp h with h0 | hrest
    · subst h0
      simp [halo_g_go, builderInv]
    · cases hbi : builderInv u with
      | none => simp only [halo_g_go, hbi]
      | some u_inv =>
        simp only [halo_g_go, hbi]
        exact ih _ _ hrest

/-- C3 evaluation. `halo_g` updates its running point with `builder.double`
(field semantics `x_power + x_power`), so round `i` uses `2^i * x`, not
`x^(2^i)`: over `ZMod 101` with `x = 3`, `us = [1, 1]` the code's value is
`(1 + 1*3)*(1 + 1*(2*3)) = 28`, while the claimed
`(u0 + u0⁻¹*x)*(u1 + u1⁻¹*x^2)` is `(1 + 3)*(1 + 9) = 40`. The claim's
division-failure half does hold: whenever some `u_i` is the additive
identity, the construction fails (`none`) rather than dividing by zero. -/
theorem halo_g_doubles_x_instead_of_squaring :
    halo_g (3 : ZMod 101) [1, 1] = some 28
    ∧ ((1 : ZMod 101) + 1⁻¹ * 3) * (1 + 1⁻¹ * 3 ^ 2) = 40
    ∧ (28 : ZMod 101) ≠ 40
    ∧ (∀ (F : Type) [Field F] [DecidableEq F] (x : F) (us : List F),
        (0 : F) ∈ us → halo_g x us = none) := by
  refine ⟨?_, ?_, by decide, ?_⟩
  · show halo_g_go 1 3 [1, 1] = some 28
    rw [show halo_g_go (1 : ZMod 101) 3 [1, 1]
          = halo_g_go (1 * (1 + 1 * 3)) (3 + 3) [1] from by
        simp [halo_g_go, builderInv, builderDouble]]
    rw [show halo_g_go ((1 : ZMod 101) * (1 + 1 * 3)) (3 + 3) [1]
          = some (1 * (1 + 1 * 3) * (1 + 1 * (3 + 3))) from by
        simp [halo_g_go, builderInv, builderDouble]]
    decide
  · rw [show ((1 : ZMod 101))⁻¹ = 1 from by
        rw [inv_eq_one_div, div_eq_iff (by decide : (1 : ZMod 101) ≠ 0)]
        decide]
    decide
  · intro F _ _ x us h
    exact halo_g_go_none_of_zero_mem us 1 x h

/-- Witness for the division-failure half of
`halo_g_doubles_x_instead_of_squaring` at a concrete input. -/
theorem halo_g_fails_on_zero_u_witness :
    halo_g (5 : ZMod 101) [0, 1] = none :=
  halo_g_doubles_x_instead_of_squaring.2.2.2 (ZMod 101) 5 [0, 1] (by decide)

/-- Lookup distributes over append when the key is absent on the left. -/
theorem PartialWitness2.get_append_of_none {F : Type} (w1 w2 : PartialWitness2 F)
    (t : Target2) (h : PartialWitness2.get w1 t = none) :
    PartialWitness2.get (w1 ++ w2) t = PartialWitness2.get w2 t := by
  induction w1 with
  | nil => simp
  | cons p rest ih =>
    obtain ⟨k, v⟩ := p
    by_cases hk : k = t
    · simp [PartialWitness2.get, hk] at h
    · simp only [PartialWitness2.get, hk, if_neg, List.cons_append,
        ite_false] at h ⊢
      exact ih h

/-- Lookup distributes over append when the key is present on the left. -/
theorem PartialWitness2.get_append_of_some {F : Type} (w1 w2 : PartialWitness2 F)
    (t : Target2) (v : F) (h : PartialWitness2.get w1 t = some v) :
    PartialWitness2.get (w1 ++ w2) t = some v := by
  induction w1 with
  | nil => simp [PartialWitness2.get] at h
  | cons p rest ih =>
    obtain ⟨k, u⟩ := p
    by_cases hk : k = t
    · simp only [PartialWitness2.get, hk, if_pos, List.cons_append,
        ite_true] at h ⊢
      exact h
    · simp only [PartialWitness2.get, hk, if_neg, List.cons_append,
        ite_false] at h ⊢
      exact ih h

/-- Unfolding of the fuelled resolution loop at fuel `2` (enough for one
generator). -/
theorem resolve_aux_two {F : Type} [DecidableEq F]
    (gens : List (WitnessGenerator2 F)) (w : PartialWitness2 F) :
    resolve_aux 2 gens w
      = match generator_pass gens w with
        | Except.error e => Except.error e
        | Except.ok (pending, w1, progress) =>
          if pending.isEmpty then Except.ok w1
          else if progress then resolve_aux 1 pending w1
          else Except.error WitnessError.stalled := rfl

/-- C7. `route(x, y)` is exactly `generate_copy(x, y)` followed by
`assert_equal(x, y)`; the registered copy generator declares dependency
set `[x]` and, once `x` is present, produces the singleton assignment
`y ↦ value of x`; and resolving the witness for that generator from any
assignment that determines `x` yields (on success) a witness in which `y`'s
resolved value equals `x`'s. -/
theorem route_copy_roundtrip :
    (∀ (F K G : Type) (wr : WireRoutable) (b : CircuitBuilder2 F K G)
        (x y : Target2),
        CircuitBuilder2.route wr b x y
          = CircuitBuilder2.assert_equal wr (b.generate_copy x y) x y
        ∧ (b.generate_copy x y).generators
            = b.generators ++ [CopyGenerator x y])
    ∧ (∀ (F : Type) (x y : Target2) (w : PartialWitness2 F) (v : F),
        PartialWitness2.get w x = some v →
        (CopyGenerator x y : WitnessGenerator2 F).dependencies = [x]
        ∧ (CopyGenerator x y : WitnessGenerator2 F).run_once w
            = PartialWitness2.singleton y v)
    ∧ (∀ (F : Type) [DecidableEq F] (x y : Target2)
        (w0 wf : PartialWitness2 F) (v : F),
        PartialWitness2.get w0 x = some v →
        resolve_witness [CopyGenerator x y] w0 = Except.ok wf →
        PartialWitness2.get wf y = PartialWitness2.get wf x) := by
  refine ⟨?_, ?_, ?_⟩
  · intro F K G wr b x y
    exact ⟨rfl, rfl⟩
  · intro F x y w v hx
    refine ⟨rfl, ?_⟩
    simp [CopyGenerator, hx]
  · intro F _ x y w0 wf v hx hres
    have hrun : (CopyGenerator x y : WitnessGenerator2 F).run_once w0
        = [(y, v)] := by
      simp [CopyGenerator, hx, PartialWitness2.singleton]
    have hdeps : deps_present w0 (CopyGenerator x y : WitnessGenerator2 F)
        = true := by
      simp [deps_present, CopyGenerator, hx]
    have hstart : resolve_witness [(CopyGenerator x y : WitnessGenerator2 F)] w0
        = resolve_aux 2 [CopyGenerator x y] w0 := rfl
    rw [hstart, resolve_aux_two] at hres
    cases hy : PartialWitness2.get w0 y with
    | none =>
      have hpass : generator_pass [(CopyGenerator x y : WitnessGenerator2 F)] w0
          = Except.ok ([], w0 ++ [(y, v)], true) := by
        simp [generator_pass, hdeps, hrun, PartialWitness2.merge, hy]
      rw [hpass] at hres
      simp only [List.isEmpty_nil, if_true] at hres
      obtain rfl : w0 ++ [(y, v)] = wf := Except.ok.inj hres
      rw [PartialWitness2.get_append_of_none w0 [(y, v)] y hy,
        PartialWitness2.get_append_of_some w0 [(y, v)] x v hx]
      simp [PartialWitness2.get]
    | some u =>
      by_cases huv : u = v
      · subst huv
        have hpass : generator_pass [(CopyGenerator x y : WitnessGenerator2 F)] w0
            = Except.ok ([], w0, true) := by
          simp [generator_pass, hdeps, hrun, PartialWitness2.merge, hy]
        rw [hpass] at hres
        simp only [List.isEmpty_nil, if_true] at hres
        obtain rfl : w0 = wf := Except.ok.inj hres
        rw [hy, hx]
      · have hpass : generator_pass [(CopyGenerator x y : WitnessGenerator2 F)] w0
            = Except.error WitnessError.inconsistent := by
          simp [generator_pass, hdeps, hrun, PartialWitness2.merge, hy, huv]
        rw [hpass] at hres
        exact absurd hres (by simp)

/-- Witness for `route_copy_roundtrip` at a concrete input: resolving the
copy generator for `x = PublicInput 0`, `y = PublicInput 1` from the
assignment `x ↦ 5` over `ZMod 101` gives `y` the value of `x`. -/
theorem route_copy_roundtrip_witness :
    PartialWitness2.get
        [((Target2.PublicInput 0 : Target2), (5 : ZMod 101)),
         (Target2.PublicInput 1, 5)] (Target2.PublicInput 1)
      = PartialWitness2.get
        [((Target2.PublicInput 0 : Target2), (5 : ZMod 101)),
         (Target2.PublicInput 1, 5)] (Target2.PublicInput 0) :=
  route_copy_roundtrip.2.2 (ZMod 101)
    (Target2.PublicInput 0) (Target2.PublicInput 1)
    [(Target2.PublicInput 0, 5)]
    [(Target2.PublicInput 0, 5), (Target2.PublicInput 1, 5)]
    5 rfl rfl
